import Mathlib

/-!
Verification development for the `win` video test platform
(`src/recorder.ts`, `src/db.ts`, and the UI wiring in the main module).

The TypeScript source is shallowly embedded:
pure computations become Lean functions; the browser event loop
(MediaRecorder stop/error events, the auto-stop timer, button clicks)
becomes an explicit step function on an application state, driven by a
trace of events processed one handler at a time (single-threaded
cooperative scheduling, as in the browser).
-/

namespace Win

/-! ## recorder.ts : MediaRecorder model -/

/-- MediaRecorder run-state as observed by the source
(`recorder.state === "recording"` guards). The source never pauses,
so only these two states occur. -/
inductive RecState
  | recording
  | inactive
deriving DecidableEq, Repr

/-- The slice of a MediaRecorder the source observes and mutates:
its run-state and (as instrumentation) how many hardware stop signals
(`recorder.stop()` calls) were issued to it. -/
structure Recorder where
  state : RecState
  stopSignals : Nat
deriving DecidableEq, Repr

/-- Embeds the guarded stop used at both call sites of the source:
`if (recorder.state === "recording") recorder.stop();`
(the auto-stop timer callback and the controller's `stop`).
`recorder.stop()` synchronously moves the recorder to `inactive`;
the "stop" event is delivered later, asynchronously. -/
def guardedStop (r : Recorder) : Recorder :=
  if r.state = RecState.recording then
    { state := RecState.inactive, stopSignals := r.stopSignals + 1 }
  else r

/-- The ordered codec preference list of `pickBestMimeType`. -/
def codecCandidates : List String :=
  ["video/webm;codecs=vp9", "video/webm;codecs=vp8", "video/webm", "video/mp4"]

/-- `pickBestMimeType`: first candidate accepted by
`MediaRecorder.isTypeSupported`, `none` when no candidate is supported
(the browser then picks its default format). -/
def pickBestMimeType (isTypeSupported : String → Bool) : Option String :=
  codecCandidates.find? isTypeSupported

/-- The mime type written into the result by the stop listener:
`recorder.mimeType || chosen || "video/webm"` — JavaScript `||` takes
the left operand unless it is the empty (falsy) string. -/
def actualMimeType (recorderMime : String) (chosen : Option String) : String :=
  if recorderMime = "" then
    match chosen with
    | some c => c
    | none => "video/webm"
  else recorderMime

/-- A binary payload: bytes plus the declared media type
(`new Blob(chunks, { type })`). -/
structure Blob where
  data : List Nat
  type : String
deriving DecidableEq, Repr

/-- `RecordingResult` from recorder.ts. -/
structure RecordingResult where
  blob : Blob
  mimeType : String
  durationMs : Nat
deriving DecidableEq, Repr

/-- The `dataavailable` listener:
`if (e.data && e.data.size > 0) chunks.push(e.data);` -/
def pushChunk (chunks : List (List Nat)) (d : List Nat) : List (List Nat) :=
  if 0 < d.length then chunks ++ [d] else chunks

/-- Chunks accumulated after the device stream emitted `emitted`,
in emission order. -/
def accumChunks (emitted : List (List Nat)) : List (List Nat) :=
  emitted.foldl pushChunk []

/-- The "stop" listener of the second `recordVideo` variant: builds the
final `RecordingResult` from the accumulated chunks, the mime type the
recorder reports, and the requested codec. `durationMs` is
`Math.max(0, Math.round(endedAt - startedAt))`; with natural-number
timestamps truncated subtraction already clamps at zero. -/
def buildResult (chunks : List (List Nat)) (recorderMime : String)
    (chosen : Option String) (startedAt endedAt : Nat) : RecordingResult :=
  let m := actualMimeType recorderMime chosen
  { blob := { data := chunks.flatten, type := m }
    mimeType := m
    durationMs := endedAt - startedAt }

/-- The codec chain of the first `recordVideo` variant
(vp9, then vp8, then plain webm; no mp4 candidate, no browser default). -/
def mimeTypeV1 (isTypeSupported : String → Bool) : String :=
  if isTypeSupported "video/webm;codecs=vp9" then "video/webm;codecs=vp9"
  else if isTypeSupported "video/webm;codecs=vp8" then "video/webm;codecs=vp8"
  else "video/webm"

/-- The `onstop` resolution of the first `recordVideo` variant: the
result's `mimeType` is the requested `mimeType` local, never read back
from the recorder. -/
def buildResultV1 (chunks : List (List Nat)) (isTypeSupported : String → Bool)
    (startedAt endedAt : Nat) : RecordingResult :=
  let m := mimeTypeV1 isTypeSupported
  { blob := { data := chunks.flatten, type := m }
    mimeType := m
    durationMs := endedAt - startedAt }

/-- The controller returned by the second `recordVideo` variant, with the
auto-stop delay that `window.setTimeout` was armed with. -/
structure RecordingController where
  recorder : Recorder
  autoStopDelayMs : Nat
deriving DecidableEq, Repr

/-- `recordVideo(stream, maxDurationMs = 90_000)`: creates the recorder,
starts it (`recorder.start()`), and arms the one-shot auto-stop timer
at `maxDurationMs`. -/
def recordVideo (maxDurationMs : Nat := 90000) : RecordingController :=
  { recorder := { state := RecState.recording, stopSignals := 0 }
    autoStopDelayMs := maxDurationMs }

/-- Body of the `window.setTimeout` auto-stop callback. -/
def timerCallback (r : Recorder) : Recorder := guardedStop r

/-- Body of the controller's `stop` member. -/
def controllerStop (r : Recorder) : Recorder := guardedStop r

/-! ## Basic recorder lemmas -/

theorem accumChunks_eq_filter (emitted : List (List Nat)) :
    accumChunks emitted = emitted.filter (fun d => decide (0 < d.length)) := by
  have h : ∀ (l : List (List Nat)) (acc : List (List Nat)),
      l.foldl pushChunk acc = acc ++ l.filter (fun d => decide (0 < d.length)) := by
    intro l
    induction l with
    | nil => intro acc; simp
    | cons d l ih =>
        intro acc
        by_cases hd : 0 < d.length
        · simp [pushChunk, hd, ih]
        · simp [pushChunk, hd, ih]
  simpa [accumChunks] using h emitted []

/-! ## db.ts : Attempt store model

The first `getDb`/`saveAttempt`/`listAttempts`/`getAttempt` variant of
`db.ts` is modelled (the one with the cached `dbInstance` module
variable). IndexedDB state is passed explicitly: the durable object
store "attempts" is an association list keyed by `id` (the `keyPath`),
`put` replacing in place, `get` searching by key. -/

/-- The `TestType` union of db.ts. -/
inductive TestType
  | pushup
  | plank
  | squat
  | vjump
  | sprint
deriving DecidableEq, Repr

/-- The `Attempt` interface of db.ts (first variant: `scoreText`
required, `video`/`mimeType`/`durationMs` optional). -/
structure Attempt where
  id : String
  testType : TestType
  createdAt : String
  verified : Bool
  scoreText : String
  video : Option Blob
  mimeType : Option String
  durationMs : Option Nat
deriving DecidableEq, Repr

/-- IndexedDB `put` on an object store with `keyPath: "id"`:
insert-or-replace at the record's key, keeping the position of a
replaced record. -/
def putRec : List Attempt → Attempt → List Attempt
  | [], a => [a]
  | x :: xs, a => if x.id = a.id then a :: xs else x :: putRec xs a

/-- IndexedDB `get` by primary key. -/
def getRec (db : List Attempt) (id : String) : Option Attempt :=
  db.find? (fun x => x.id = id)

/-- Explicit module-level state of db.ts together with the underlying
IndexedDB database: the cached `dbInstance` (a connection handle,
identified by a number), how many times `openDB` was invoked, whether
the "attempts" object store has been provisioned, and its records. -/
structure DbState where
  dbInstance : Option Nat
  nextHandle : Nat
  opens : Nat
  provisioned : Bool
  records : List Attempt
deriving DecidableEq, Repr

/-- Fresh process state: `let dbInstance = null;`, no connection opened
yet, database not yet provisioned, no records. -/
def DbState.init : DbState :=
  { dbInstance := none, nextHandle := 0, opens := 0
    provisioned := false, records := [] }

/-- `getDb` (first variant): return the cached instance if present,
otherwise `openDB("win_db", 1, { upgrade(db) ... })`, whose upgrade
callback creates the "attempts" store if absent, and cache the opened
connection. -/
def getDb (s : DbState) : Nat × DbState :=
  match s.dbInstance with
  | some h => (h, s)
  | none =>
      (s.nextHandle,
       { s with dbInstance := some s.nextHandle
                nextHandle := s.nextHandle + 1
                opens := s.opens + 1
                provisioned := true })

/-- `saveAttempt`: `const db = await getDb(); await db.put("attempts", attempt);` -/
def saveAttempt (s : DbState) (attempt : Attempt) : DbState :=
  let s1 := (getDb s).2
  { s1 with records := putRec s1.records attempt }

/-- `getAttempt`: `const db = await getDb(); return db.get("attempts", id);` -/
def getAttempt (s : DbState) (id : String) : Option Attempt × DbState :=
  let s1 := (getDb s).2
  (getRec s1.records id, s1)

/-- `listAttempts`: `const db = await getDb(); return db.getAll("attempts");` -/
def listAttempts (s : DbState) : List Attempt × DbState :=
  let s1 := (getDb s).2
  (s1.records, s1)

/-! ## Store lemmas -/

theorem getDb_records (s : DbState) : ((getDb s).2).records = s.records := by
  cases h : s.dbInstance <;> simp [getDb, h]

theorem getRec_putRec_self (db : List Attempt) (a : Attempt) :
    getRec (putRec db a) a.id = some a := by
  induction db with
  | nil => simp [putRec, getRec, List.find?]
  | cons x xs ih =>
      by_cases hx : x.id = a.id
      · simp [putRec, hx, getRec, List.find?]
      · simp only [putRec, if_neg hx]
        simpa [getRec, List.find?, hx] using ih

theorem putRec_map_id_of_not_mem (db : List Attempt) (a : Attempt)
    (h : a.id ∉ db.map Attempt.id) :
    (putRec db a).map Attempt.id = db.map Attempt.id ++ [a.id] := by
  induction db with
  | nil => simp [putRec]
  | cons x xs ih =>
      simp only [List.map_cons, List.mem_cons] at h
      push_neg at h
      have hx : x.id ≠ a.id := fun hx => h.1 hx.symm
      simp only [putRec, if_neg hx]
      simp [ih h.2]

theorem foldl_saveAttempt_map_id (as : List Attempt) :
    ∀ s : DbState,
      (∀ x ∈ as, x.id ∉ s.records.map Attempt.id) →
      as.Pairwise (fun x y => x.id ≠ y.id) →
      ((as.foldl saveAttempt s).records).map Attempt.id =
        s.records.map Attempt.id ++ as.map Attempt.id := by
  induction as with
  | nil => intro s _ _; simp
  | cons a as ih =>
      intro s hnot hpw
      have hpw1 := List.pairwise_cons.mp hpw
      have ha : a.id ∉ s.records.map Attempt.id := hnot a (by simp)
      have hrec : (saveAttempt s a).records = putRec s.records a := by
        simp [saveAttempt, getDb_records]
      have hput := putRec_map_id_of_not_mem s.records a ha
      rw [List.foldl_cons, ih (saveAttempt s a) ?_ hpw1.2]
      · rw [hrec, hput]; simp
      · intro x hx
        rw [hrec, hput]
        simp only [List.mem_append, List.mem_singleton]
        rintro (hmem | hid)
        · exact hnot x (by simp [hx]) hmem
        · exact hpw1.1 x hx hid.symm

/-! ## Main-module event machine

The UI wiring (module-level mutable variables and event handlers of the
main module) is embedded as a step function over an explicit state,
driven by a trace of handler invocations. Each event runs one handler
to completion, as in the browser's single-threaded event loop:
MediaRecorder's "dataavailable"/"stop"/"error" events and the auto-stop
timeout are delivered as separate events, strictly after the handler
that triggered them returned.

The machine tracks one recording session per trace (the scope of every
session-lifecycle claim). Fields marked as instrumentation record
observations (release counts per camera handle, whether the cancel
branch of the back handler ran, what was passed to `saveAttempt`);
they are written alongside the embedded source effects and never read
by the embedded handlers. -/

/-- Whitespace as trimmed by JavaScript `String.prototype.trim` (the
characters occurring in practice). -/
def isWs (c : Char) : Bool :=
  c = ' ' || c = '\t' || c = '\n' || c = '\r'

/-- `score.trim()` from the save handler, written over the character
list so it evaluates by reduction. -/
def jsTrim (s : String) : String :=
  String.mk (((s.data.dropWhile isWs).reverse.dropWhile isWs).reverse)

/-- A handler invocation / asynchronous callback delivery. -/
inductive Ev
  /-- Click on a test-selection button (`openTestRecorder`). -/
  | selectTest (t : TestType)
  /-- Click on `#start-camera` with `getUserMedia` succeeding. -/
  | camOk
  /-- Click on `#start-record`. -/
  | startRec
  /-- Click on `#stop-record`. -/
  | stopClick
  /-- Click on `#back-to-tests`. -/
  | backClick
  /-- The one-shot auto-stop `setTimeout` callback fires. -/
  | timerFire
  /-- The recorder delivers a `dataavailable` event with `d` bytes. -/
  | dataChunk (d : List Nat)
  /-- The recorder delivers its terminal "stop" event (hardware-confirmed
  stop); the `done` promise resolves and the registered `.then` runs. -/
  | hwStop
  /-- The recorder delivers an "error" event; `done` rejects and the
  registered `.catch` runs. -/
  | hwError
  /-- Click on `#save-attempt` with the score input holding `score`. -/
  | saveClick (score : String)
deriving DecidableEq, Repr

/-- The live MediaRecorder session created by the `#start-record`
handler: the recorder, its accumulated chunks, the codec that was
requested, when capture started, and whether its one-shot timer has
fired and its `done` promise has settled (resolved or rejected). -/
structure HwSession where
  recorder : Recorder
  chunks : List (List Nat)
  chosen : Option String
  startedAt : Nat
  timerFired : Bool
  settled : Bool
  rejected : Bool
deriving DecidableEq, Repr

/-- Module-level state of the main module plus instrumentation.
`camStops` maps each acquired camera handle (index = handle id) to the
number of times `stopCamera` was invoked on it. -/
structure AppState where
  now : Nat
  camerasAcquired : Nat
  camStops : List Nat
  currentStream : Option Nat
  hw : Option HwSession
  hasCurrentRecording : Bool
  isCancelling : Bool
  currentTestType : Option TestType
  recordedVideo : Option RecordingResult
  savedAttempts : List Attempt
  saveVisible : Bool
  startCameraEnabled : Bool
  startRecordEnabled : Bool
  stopRecordEnabled : Bool
  cancelEverRequested : Bool
  acceptedResult : Option RecordingResult
  ignoredCancelled : Bool
deriving DecidableEq, Repr

/-- `stopCamera(stream)` on handle `h`: stop every track of the stream,
recorded as one release of that handle. -/
def stopCameraOn (s : AppState) (h : Nat) : AppState :=
  { s with camStops := s.camStops.set h (s.camStops.getD h 0 + 1) }

/-- `resetRecorder()` from the main module; it does not touch the live
MediaRecorder session, only the module variables and the UI. -/
def resetRecorder (s : AppState) : AppState :=
  let s1 :=
    match s.currentStream with
    | some h => { stopCameraOn s h with currentStream := none }
    | none => s
  { s1 with
    currentTestType := none
    recordedVideo := none
    hasCurrentRecording := false
    isCancelling := false
    saveVisible := false
    startCameraEnabled := true
    startRecordEnabled := false
    stopRecordEnabled := false }

/-- One handler invocation. `support` is
`MediaRecorder.isTypeSupported`; `recorderMime` is the value of
`recorder.mimeType` read back in the stop listener. The wall clock
advances by one unit per processed event. -/
def step (support : String → Bool) (recorderMime : String)
    (s0 : AppState) (e : Ev) : AppState :=
  let s := { s0 with now := s0.now + 1 }
  match e with
  | Ev.selectTest t =>
      { s with
        currentTestType := some t
        saveVisible := false
        recordedVideo := none
        startCameraEnabled := true
        startRecordEnabled := false
        stopRecordEnabled := false }
  | Ev.camOk =>
      let s1 :=
        match s.currentStream with
        | some h => stopCameraOn s h
        | none => s
      { s1 with
        currentStream := some s1.camerasAcquired
        camerasAcquired := s1.camerasAcquired + 1
        camStops := s1.camStops ++ [0]
        startCameraEnabled := false
        startRecordEnabled := true }
  | Ev.startRec =>
      match s.currentStream with
      | none => s
      | some _ =>
          { s with
            isCancelling := false
            hw := some
              { recorder := { state := RecState.recording, stopSignals := 0 }
                chunks := []
                chosen := pickBestMimeType support
                startedAt := s.now
                timerFired := false
                settled := false
                rejected := false }
            hasCurrentRecording := true
            startRecordEnabled := false
            stopRecordEnabled := true }
  | Ev.stopClick =>
      if s.hasCurrentRecording then
        match s.hw with
        | some h => { s with hw := some { h with recorder := guardedStop h.recorder } }
        | none => s
      else s
  | Ev.backClick =>
      let s1 :=
        if s.hasCurrentRecording then
          match s.hw with
          | some h =>
              if h.recorder.state = RecState.recording then
                { s with
                  isCancelling := true
                  cancelEverRequested := true
                  hw := some { h with recorder := guardedStop h.recorder } }
              else s
          | none => s
        else s
      resetRecorder s1
  | Ev.timerFire =>
      match s.hw with
      | some h =>
          { s with hw := some { h with recorder := guardedStop h.recorder, timerFired := true } }
      | none => s
  | Ev.dataChunk d =>
      match s.hw with
      | some h => { s with hw := some { h with chunks := pushChunk h.chunks d } }
      | none => s
  | Ev.hwStop =>
      match s.hw with
      | none => s
      | some h =>
          let result := buildResult h.chunks recorderMime h.chosen h.startedAt s.now
          let s1 := { s with hw := some { h with settled := true } }
          if s1.isCancelling then
            { s1 with ignoredCancelled := true }
          else
            let s2 := { s1 with
              recordedVideo := some result
              acceptedResult := some result }
            let s3 :=
              match s2.currentStream with
              | some ch => { stopCameraOn s2 ch with currentStream := none }
              | none => s2
            { s3 with saveVisible := true, stopRecordEnabled := false }
  | Ev.hwError =>
      match s.hw with
      | none => s
      | some h =>
          let s1 := { s with hw := some { h with settled := true, rejected := true } }
          { s1 with
            stopRecordEnabled := false
            startRecordEnabled := true
            startCameraEnabled := true }
  | Ev.saveClick score =>
      match s.recordedVideo, s.currentTestType with
      | some rv, some tt =>
          if jsTrim score = "" then s
          else
            let attempt : Attempt :=
              { id := toString s.savedAttempts.length
                testType := tt
                createdAt := toString s.now
                verified := false
                scoreText := jsTrim score
                video := some rv.blob
                mimeType := some rv.mimeType
                durationMs := some rv.durationMs }
            resetRecorder { s with savedAttempts := s.savedAttempts ++ [attempt] }
      | _, _ => s

/-- Whether event `e` can occur in state `s`: clicks require the
control to be enabled/visible, asynchronous callbacks require a live
session in the matching phase (the timer fires once; "stop"
only after a stop signal made the recorder inactive; nothing is
delivered after `done` settled). `startRec` additionally requires that
no session exists yet: the machine covers one session per trace. -/
def okEv (s : AppState) (e : Ev) : Bool :=
  match e with
  | Ev.selectTest _ => true
  | Ev.camOk => s.startCameraEnabled
  | Ev.startRec => s.startRecordEnabled && s.hw.isNone
  | Ev.stopClick => s.stopRecordEnabled
  | Ev.backClick => true
  | Ev.timerFire =>
      match s.hw with
      | some h => !h.timerFired
      | none => false
  | Ev.dataChunk _ =>
      match s.hw with
      | some h => !h.settled
      | none => false
  | Ev.hwStop =>
      match s.hw with
      | some h => !h.settled && decide (h.recorder.state = RecState.inactive)
      | none => false
  | Ev.hwError =>
      match s.hw with
      | some h => !h.settled
      | none => false
  | Ev.saveClick _ => s.saveVisible

/-- Initial state on page load. -/
def AppState.init : AppState :=
  { now := 0
    camerasAcquired := 0
    camStops := []
    currentStream := none
    hw := none
    hasCurrentRecording := false
    isCancelling := false
    currentTestType := none
    recordedVideo := none
    savedAttempts := []
    saveVisible := false
    startCameraEnabled := true
    startRecordEnabled := false
    stopRecordEnabled := false
    cancelEverRequested := false
    acceptedResult := none
    ignoredCancelled := false }

/-- Run a trace from a given state. -/
def runFrom (support : String → Bool) (recorderMime : String)
    (s : AppState) (es : List Ev) : AppState :=
  es.foldl (step support recorderMime) s

/-- Run a trace from the initial state. -/
def run (support : String → Bool) (recorderMime : String)
    (es : List Ev) : AppState :=
  runFrom support recorderMime AppState.init es

/-- A trace is valid from `s` when every event can occur in the state
reached by its predecessors. -/
def validFrom (support : String → Bool) (recorderMime : String) :
    AppState → List Ev → Bool
  | _, [] => true
  | s, e :: es =>
      okEv s e && validFrom support recorderMime (step support recorderMime s e) es

/-- A trace valid from page load. -/
def validTrace (support : String → Bool) (recorderMime : String)
    (es : List Ev) : Bool :=
  validFrom support recorderMime AppState.init es

/-- Codec support map used to instantiate concrete traces: nothing
supported, so the browser default is used. -/
def noSupport : String → Bool := fun _ => false

/-! ## Concrete traces used to settle the session-lifecycle claims -/

/-- Cancel while recording: select a test, acquire the camera, start
recording, press Back while the recorder is recording, then the
hardware stop confirmation arrives. -/
def cancelTrace : List Ev :=
  [Ev.selectTest TestType.pushup, Ev.camOk, Ev.startRec, Ev.backClick, Ev.hwStop]

/-- Cancel while recording, then re-open a test before the hardware
stop confirmation arrives, and save once the (stale) save UI shows. -/
def cancelThenSaveTrace : List Ev :=
  [Ev.selectTest TestType.plank, Ev.camOk, Ev.startRec, Ev.backClick,
   Ev.dataChunk [1, 2, 3], Ev.selectTest TestType.plank, Ev.hwStop,
   Ev.saveClick "62s"]

/-- A capture that fails with a recorder error. -/
def errorTrace : List Ev :=
  [Ev.selectTest TestType.pushup, Ev.camOk, Ev.startRec, Ev.hwError]

/-! ## C1, C2: cancellation handling -/

/-- C1: the claim says that when `requestCancel` (Back while recording)
precedes the hardware-confirmed stop, the outcome is classified as
Cancelled and the completed-clip result is ignored. The code violates
this: the Back handler sets `isCancelling = true` and requests the stop,
but then synchronously calls `resetRecorder()`, which resets
`isCancelling` to `false` before the asynchronous stop confirmation is
delivered; so the `done.then` callback does not early-return — it
accepts the result and shows the Save/Preview UI. On the cancel trace,
the cancel branch ran, yet the result is accepted, not ignored. -/
theorem c1_cancel_result_not_ignored :
    validTrace noSupport "video/webm" cancelTrace = true ∧
    (run noSupport "video/webm" cancelTrace).cancelEverRequested = true ∧
    (run noSupport "video/webm" cancelTrace).ignoredCancelled = false ∧
    (run noSupport "video/webm" cancelTrace).acceptedResult =
      some { blob := { data := [], type := "video/webm" }
             mimeType := "video/webm", durationMs := 2 } ∧
    (run noSupport "video/webm" cancelTrace).saveVisible = true := by
  refine ⟨rfl, rfl, rfl, rfl, rfl⟩

/-- C2: the claim says no Attempt derived from a cancelled session is
ever passed to `saveAttempt`. The code violates this: after Back during
recording, if the user re-opens a test before the hardware stop
confirmation arrives, the stale `done.then` callback (its cancellation
guard defeated as in C1) installs the cancelled session's clip as
`recordedVideo` and shows the save UI; pressing Save then passes an
Attempt carrying the cancelled session's payload to `saveAttempt`. -/
theorem c2_cancelled_attempt_saved :
    validTrace noSupport "video/webm" cancelThenSaveTrace = true ∧
    (run noSupport "video/webm" cancelThenSaveTrace).cancelEverRequested = true ∧
    (run noSupport "video/webm" cancelThenSaveTrace).savedAttempts.length = 1 ∧
    ((run noSupport "video/webm" cancelThenSaveTrace).savedAttempts.map
        (fun a => a.video)) =
      [some { data := [1, 2, 3], type := "video/webm" }] := by
  refine ⟨rfl, rfl, rfl, rfl⟩

/-! ## C4: error path -/

/-- C4 counterexample: the claim says a hardware/codec error during
capture both rejects the pending result and still guarantees the camera
is released. The code rejects the result, but its `done.catch` handler
only performs UI recovery: it never calls `stopCamera`, so the acquired
handle (handle 0) has release count 0 and the stream stays held. -/
theorem c4_error_leaves_camera_held :
    validTrace noSupport "video/webm" errorTrace = true ∧
    ((run noSupport "video/webm" errorTrace).hw.map (fun h => h.rejected)) =
      some true ∧
    (run noSupport "video/webm" errorTrace).camStops = [0] ∧
    (run noSupport "video/webm" errorTrace).currentStream = some 0 := by
  refine ⟨rfl, rfl, rfl, rfl⟩

/-- C4 amended: a recorder error rejects the pending `done` promise, and
the camera is NOT released on that path — the stream remains acquired
and the start-record/start-camera controls are re-enabled so capture
can be retried with the held stream. -/
theorem c4_amended_error_rejects_keeps_camera (t : TestType) :
    validTrace noSupport "video/webm"
      [Ev.selectTest t, Ev.camOk, Ev.startRec, Ev.hwError] = true ∧
    ((run noSupport "video/webm"
        [Ev.selectTest t, Ev.camOk, Ev.startRec, Ev.hwError]).hw.map
      (fun h => h.rejected)) = some true ∧
    (run noSupport "video/webm"
      [Ev.selectTest t, Ev.camOk, Ev.startRec, Ev.hwError]).camStops = [0] ∧
    (run noSupport "video/webm"
      [Ev.selectTest t, Ev.camOk, Ev.startRec, Ev.hwError]).currentStream =
      some 0 ∧
    (run noSupport "video/webm"
      [Ev.selectTest t, Ev.camOk, Ev.startRec, Ev.hwError]).startRecordEnabled =
      true ∧
    (run noSupport "video/webm"
      [Ev.selectTest t, Ev.camOk, Ev.startRec, Ev.hwError]).startCameraEnabled =
      true := by
  refine ⟨rfl, rfl, rfl, rfl, rfl, rfl⟩

/-! ## C3: one stop signal, one camera release

Invariant for the phase after `selectTest t, camOk, startRec`: one
camera handle (handle 0) was acquired and the session is in one of
three shapes:
A — still recording, no stop signal yet, camera held, never released;
B — stop signalled (once), confirmation pending, camera still held;
C — stop signalled (once) and the camera handle released exactly once.
Termination events (manual stop, Back/cancel, the auto-stop timer, the
hardware stop confirmation) move the state down this chain and never
issue a second signal or a second release. -/

def sessionInv (s : AppState) : Prop :=
  s.camerasAcquired = 1 ∧ s.isCancelling = false ∧
  ∃ h, s.hw = some h ∧
    ((h.recorder.state = RecState.recording ∧ h.recorder.stopSignals = 0 ∧
      h.settled = false ∧ s.currentStream = some 0 ∧ s.camStops = [0] ∧
      s.hasCurrentRecording = true) ∨
     (h.recorder.state = RecState.inactive ∧ h.recorder.stopSignals = 1 ∧
      h.settled = false ∧ s.currentStream = some 0 ∧ s.camStops = [0]) ∨
     (h.recorder.state = RecState.inactive ∧ h.recorder.stopSignals = 1 ∧
      s.currentStream = none ∧ s.camStops = [1]))

theorem sessionInv_step (support : String → Bool) (recorderMime : String)
    (s : AppState) (e : Ev) (hinv : sessionInv s)
    (he : e = Ev.stopClick ∨ e = Ev.backClick ∨ e = Ev.timerFire ∨ e = Ev.hwStop)
    (hok : okEv s e = true) :
    sessionInv (step support recorderMime s e) := by
  obtain ⟨hcam, hcanc, h, hhw, hcase⟩ := hinv
  rcases he with rfl | rfl | rfl | rfl
  · -- stopClick
    rcases hcase with ⟨hst, hsig, hset, hstr, hcs, hhcr⟩ |
      ⟨hst, hsig, hset, hstr, hcs⟩ | ⟨hst, hsig, hstr, hcs⟩
    · refine ⟨by simp [step, hhw, hhcr, hcam], by simp [step, hhw, hhcr, hcanc],
        { h with recorder := guardedStop h.recorder },
        by simp [step, hhw, hhcr], Or.inr (Or.inl ?_)⟩
      simp [step, hhw, hhcr, guardedStop, hst, hsig, hset, hstr, hcs]
    · cases hhcr : s.hasCurrentRecording
      · refine ⟨by simp [step, hhw, hhcr, hcam], by simp [step, hhw, hhcr, hcanc],
          h, by simp [step, hhw, hhcr], Or.inr (Or.inl ?_)⟩
        simp [step, hhw, hhcr, hst, hsig, hset, hstr, hcs]
      · refine ⟨by simp [step, hhw, hhcr, hcam], by simp [step, hhw, hhcr, hcanc],
          { h with recorder := guardedStop h.recorder },
          by simp [step, hhw, hhcr], Or.inr (Or.inl ?_)⟩
        simp [step, hhw, hhcr, guardedStop, hst, hsig, hset, hstr, hcs]
    · cases hhcr : s.hasCurrentRecording
      · refine ⟨by simp [step, hhw, hhcr, hcam], by simp [step, hhw, hhcr, hcanc],
          h, by simp [step, hhw, hhcr], Or.inr (Or.inr ?_)⟩
        simp [step, hhw, hhcr, hst, hsig, hstr, hcs]
      · refine ⟨by simp [step, hhw, hhcr, hcam], by simp [step, hhw, hhcr, hcanc],
          { h with recorder := guardedStop h.recorder },
          by simp [step, hhw, hhcr], Or.inr (Or.inr ?_)⟩
        simp [step, hhw, hhcr, guardedStop, hst, hsig, hstr, hcs]
  · -- backClick
    rcases hcase with ⟨hst, hsig, hset, hstr, hcs, hhcr⟩ |
      ⟨hst, hsig, hset, hstr, hcs⟩ | ⟨hst, hsig, hstr, hcs⟩
    · refine ⟨by simp [step, resetRecorder, stopCameraOn, hhw, hhcr, hst, hstr, hcam],
        by simp [step, resetRecorder, stopCameraOn, hhw, hhcr, hst, hstr],
        { h with recorder := guardedStop h.recorder },
        by simp [step, resetRecorder, stopCameraOn, hhw, hhcr, hst, hstr],
        Or.inr (Or.inr ?_)⟩
      simp [step, resetRecorder, stopCameraOn, hhw, hhcr, hst, hstr, hcs,
        guardedStop, hsig]
    · cases hhcr : s.hasCurrentRecording <;>
      · refine ⟨by simp [step, resetRecorder, stopCameraOn, hhw, hhcr, hst, hstr, hcam],
          by simp [step, resetRecorder, stopCameraOn, hhw, hhcr, hst, hstr],
          h, by simp [step, resetRecorder, stopCameraOn, hhw, hhcr, hst, hstr],
          Or.inr (Or.inr ?_)⟩
        simp [step, resetRecorder, stopCameraOn, hhw, hhcr, hst, hstr, hcs, hsig]
    · cases hhcr : s.hasCurrentRecording <;>
      · refine ⟨by simp [step, resetRecorder, stopCameraOn, hhw, hhcr, hst, hstr, hcam],
          by simp [step, resetRecorder, stopCameraOn, hhw, hhcr, hst, hstr],
          h, by simp [step, resetRecorder, stopCameraOn, hhw, hhcr, hst, hstr],
          Or.inr (Or.inr ?_)⟩
        simp [step, resetRecorder, stopCameraOn, hhw, hhcr, hst, hstr, hcs, hsig]
  · -- timerFire
    rcases hcase with ⟨hst, hsig, hset, hstr, hcs, hhcr⟩ |
      ⟨hst, hsig, hset, hstr, hcs⟩ | ⟨hst, hsig, hstr, hcs⟩
    · refine ⟨by simp [step, hhw, hcam], by simp [step, hhw, hcanc],
        { h with recorder := guardedStop h.recorder, timerFired := true },
        by simp [step, hhw], Or.inr (Or.inl ?_)⟩
      simp [step, hhw, guardedStop, hst, hsig, hset, hstr, hcs]
    · refine ⟨by simp [step, hhw, hcam], by simp [step, hhw, hcanc],
        { h with recorder := guardedStop h.recorder, timerFired := true },
        by simp [step, hhw], Or.inr (Or.inl ?_)⟩
      simp [step, hhw, guardedStop, hst, hsig, hset, hstr, hcs]
    · refine ⟨by simp [step, hhw, hcam], by simp [step, hhw, hcanc],
        { h with recorder := guardedStop h.recorder, timerFired := true },
        by simp [step, hhw], Or.inr (Or.inr ?_)⟩
      simp [step, hhw, guardedStop, hst, hsig, hstr, hcs]
  · -- hwStop
    rcases hcase with ⟨hst, hsig, hset, hstr, hcs, hhcr⟩ |
      ⟨hst, hsig, hset, hstr, hcs⟩ | ⟨hst, hsig, hstr, hcs⟩
    · exfalso
      simp [okEv, hhw, hst] at hok
    · refine ⟨by simp [step, stopCameraOn, hhw, hcanc, hstr, hcam],
        by simp [step, stopCameraOn, hhw, hcanc, hstr],
        { h with settled := true },
        by simp [step, stopCameraOn, hhw, hcanc, hstr], Or.inr (Or.inr ?_)⟩
      simp [step, stopCameraOn, hhw, hcanc, hstr, hst, hsig, hcs]
    · refine ⟨by simp [step, stopCameraOn, hhw, hcanc, hstr, hcam],
        by simp [step, stopCameraOn, hhw, hcanc, hstr],
        { h with settled := true },
        by simp [step, stopCameraOn, hhw, hcanc, hstr], Or.inr (Or.inr ?_)⟩
      simp [step, stopCameraOn, hhw, hcanc, hstr, hst, hsig, hcs]

/-- Once the session's `done` promise has settled it stays settled: none
of the termination events un-settles it (a hardware stop confirmation
marks it settled in both branches of its handler). -/
theorem settled_mono (support : String → Bool) (recorderMime : String)
    (s : AppState) (e : Ev)
    (he : e = Ev.stopClick ∨ e = Ev.backClick ∨ e = Ev.timerFire ∨ e = Ev.hwStop)
    (h : HwSession) (hhw : s.hw = some h) (hset : h.settled = true) :
    ∃ h2, (step support recorderMime s e).hw = some h2 ∧ h2.settled = true := by
  rcases he with rfl | rfl | rfl | rfl
  · cases hhcr : s.hasCurrentRecording
    · exact ⟨h, by simp [step, hhw, hhcr], hset⟩
    · exact ⟨{ h with recorder := guardedStop h.recorder },
        by simp [step, hhw, hhcr], hset⟩
  · cases hhcr : s.hasCurrentRecording
    · exact ⟨h, by
        simp [step, resetRecorder, stopCameraOn, hhw, hhcr]
        cases s.currentStream <;> simp, hset⟩
    · cases hst : h.recorder.state
      · exact ⟨{ h with recorder := guardedStop h.recorder }, by
          simp [step, resetRecorder, stopCameraOn, hhw, hhcr, hst]
          cases s.currentStream <;> simp, hset⟩
      · exact ⟨h, by
          simp [step, resetRecorder, stopCameraOn, hhw, hhcr, hst]
          cases s.currentStream <;> simp, hset⟩
  · exact ⟨{ h with recorder := guardedStop h.recorder, timerFired := true },
      by simp [step, hhw], hset⟩
  · cases hcanc : s.isCancelling
    · exact ⟨{ h with settled := true }, by
        simp [step, stopCameraOn, hhw, hcanc]
        cases s.currentStream <;> simp, rfl⟩
    · exact ⟨{ h with settled := true }, by simp [step, hhw, hcanc], rfl⟩

/-- A valid hardware stop confirmation settles the session. -/
theorem settled_after_hwStop (support : String → Bool) (recorderMime : String)
    (s : AppState) (hok : okEv s Ev.hwStop = true) :
    ∃ h2, (step support recorderMime s Ev.hwStop).hw = some h2 ∧
      h2.settled = true := by
  cases hhw : s.hw with
  | none => simp [okEv, hhw] at hok
  | some h =>
      cases hcanc : s.isCancelling
      · exact ⟨{ h with settled := true }, by
          simp [step, stopCameraOn, hhw, hcanc]
          cases s.currentStream <;> simp, rfl⟩
      · exact ⟨{ h with settled := true }, by simp [step, hhw, hcanc], rfl⟩

/-- Induction along the termination phase: the invariant is preserved,
and once a hardware stop confirmation occurs (or the session is already
settled) the final session is settled. -/
theorem sessionInv_runFrom (support : String → Bool) (recorderMime : String)
    (rest : List Ev) :
    ∀ s : AppState, sessionInv s →
      (∀ e ∈ rest, e = Ev.stopClick ∨ e = Ev.backClick ∨ e = Ev.timerFire ∨
        e = Ev.hwStop) →
      validFrom support recorderMime s rest = true →
      sessionInv (runFrom support recorderMime s rest) ∧
      ((Ev.hwStop ∈ rest ∨ ∃ h, s.hw = some h ∧ h.settled = true) →
        ∃ h2, (runFrom support recorderMime s rest).hw = some h2 ∧
          h2.settled = true) := by
  induction rest with
  | nil =>
      intro s hinv _ _
      refine ⟨hinv, ?_⟩
      rintro (hmem | hset)
      · simp at hmem
      · exact hset
  | cons e es ih =>
      intro s hinv halpha hvalid
      have he := halpha e (by simp)
      have hok : okEv s e = true := by
        have := hvalid
        simp [validFrom] at this
        exact this.1
      have hvalid2 : validFrom support recorderMime
          (step support recorderMime s e) es = true := by
        simp [validFrom] at hvalid
        exact hvalid.2
      have hinv2 := sessionInv_step support recorderMime s e hinv he hok
      have halpha2 : ∀ x ∈ es, x = Ev.stopClick ∨ x = Ev.backClick ∨
          x = Ev.timerFire ∨ x = Ev.hwStop := fun x hx => halpha x (by simp [hx])
      obtain ⟨hfin, hsetfin⟩ := ih (step support recorderMime s e) hinv2 halpha2 hvalid2
      refine ⟨by simpa [runFrom] using hfin, ?_⟩
      rintro (hmem | ⟨h, hhw, hset⟩)
      · rcases List.mem_cons.mp hmem with rfl | hmem2
        · have hsettled := settled_after_hwStop support recorderMime s hok
          simpa [runFrom] using hsetfin (Or.inr hsettled)
        · simpa [runFrom] using hsetfin (Or.inl hmem2)
      · have hsettled := settled_mono support recorderMime s e he h hhw hset
        simpa [runFrom] using hsetfin (Or.inr hsettled)

/-- C3: for every valid interleaving of manual stop clicks, Back
(cancel) clicks and the auto-stop timer around the hardware stop
confirmation, once the hardware confirms the stop exactly one hardware
stop signal was ever issued to the recorder (later requests observe the
recorder already inactive and no-op), and the single acquired camera
handle was released exactly once. -/
theorem c3_one_stop_signal_one_release (support : String → Bool)
    (recorderMime : String) (t : TestType) (rest : List Ev)
    (halpha : ∀ e ∈ rest, e = Ev.stopClick ∨ e = Ev.backClick ∨
      e = Ev.timerFire ∨ e = Ev.hwStop)
    (hvalid : validTrace support recorderMime
      ([Ev.selectTest t, Ev.camOk, Ev.startRec] ++ rest) = true)
    (hstop : Ev.hwStop ∈ rest) :
    ((run support recorderMime
        ([Ev.selectTest t, Ev.camOk, Ev.startRec] ++ rest)).hw.map
      (fun h => h.recorder.stopSignals)) = some 1 ∧
    (run support recorderMime
      ([Ev.selectTest t, Ev.camOk, Ev.startRec] ++ rest)).camStops = [1] ∧
    (run support recorderMime
      ([Ev.selectTest t, Ev.camOk, Ev.startRec] ++ rest)).camerasAcquired = 1 := by
  set S0 := runFrom support recorderMime AppState.init
    [Ev.selectTest t, Ev.camOk, Ev.startRec] with hS0
  have hsplit : run support recorderMime
      ([Ev.selectTest t, Ev.camOk, Ev.startRec] ++ rest) =
      runFrom support recorderMime S0 rest := by
    simp [run, runFrom, hS0, List.foldl_append]
  have hinv0 : sessionInv S0 := by
    refine ⟨rfl, rfl,
      { recorder := { state := RecState.recording, stopSignals := 0 }
        chunks := []
        chosen := pickBestMimeType support
        startedAt := 3
        timerFired := false
        settled := false
        rejected := false }, rfl, Or.inl ⟨rfl, rfl, rfl, rfl, rfl, rfl⟩⟩
  have hvalid2 : validFrom support recorderMime S0 rest = true := by
    simpa [validTrace, validFrom, okEv, step, AppState.init, hS0, runFrom]
      using hvalid
  obtain ⟨hfin, hsetfin⟩ :=
    sessionInv_runFrom support recorderMime rest S0 hinv0 halpha hvalid2
  obtain ⟨h2, hhw2, hset2⟩ := hsetfin (Or.inl hstop)
  obtain ⟨hcam, _, h, hhw, hcase⟩ := hfin
  rw [hhw] at hhw2
  cases Option.some.inj hhw2
  rcases hcase with ⟨_, _, hset, _, _, _⟩ | ⟨_, _, hset, _, _⟩ |
    ⟨_, hsig, _, hcs⟩
  · rw [hset2] at hset; cases hset
  · rw [hset2] at hset; cases hset
  · rw [hsplit]
    exact ⟨by rw [hhw]; simp [hsig], hcs, hcam⟩

/-- Manual stop followed by hardware confirmation, with a late no-op
stop request overlapping the auto-stop timer, used as C3 witness. -/
def stopTrace : List Ev :=
  [Ev.selectTest TestType.pushup, Ev.camOk, Ev.startRec,
   Ev.stopClick, Ev.timerFire, Ev.hwStop]

/-- C3 witness: the guarantee at a concrete interleaving (manual stop,
then the timer fires as a no-op, then the hardware confirms). -/
theorem c3_witness :
    ((run noSupport "video/webm" stopTrace).hw.map
      (fun h => h.recorder.stopSignals)) = some 1 ∧
    (run noSupport "video/webm" stopTrace).camStops = [1] ∧
    (run noSupport "video/webm" stopTrace).camerasAcquired = 1 :=
  c3_one_stop_signal_one_release noSupport "video/webm" TestType.pushup
    [Ev.stopClick, Ev.timerFire, Ev.hwStop]
    (by decide) (by decide) (by decide)

/-! ## C5: auto-stop scheduling and idempotence -/

/-- C5: `recordVideo` arms the one-shot auto-stop at `maxDurationMs`,
whose default is 90000 ms; when no stop or cancel preceded it the timer
callback finds the recorder still recording, signals the hardware stop
and terminates the capture; a stop request arriving after the auto-stop
already signalled observes the recorder inactive and is a no-op. -/
theorem c5_autostop_default_fire_noop (d : Nat) (r : Recorder)
    (hr : r.state = RecState.recording) :
    (recordVideo).autoStopDelayMs = 90000 ∧
    (recordVideo d).autoStopDelayMs = d ∧
    (recordVideo).recorder.state = RecState.recording ∧
    (timerCallback r).state = RecState.inactive ∧
    (timerCallback r).stopSignals = r.stopSignals + 1 ∧
    controllerStop (timerCallback r) = timerCallback r := by
  refine ⟨rfl, rfl, rfl, ?_, ?_, ?_⟩
  · simp [timerCallback, guardedStop, hr]
  · simp [timerCallback, guardedStop, hr]
  · simp [controllerStop, timerCallback, guardedStop, hr]

/-- C5 witness: the recorder as freshly started by `recordVideo`. -/
theorem c5_autostop_witness :
    (recordVideo).autoStopDelayMs = 90000 ∧
    (recordVideo 60000).autoStopDelayMs = 60000 ∧
    (recordVideo).recorder.state = RecState.recording ∧
    (timerCallback { state := RecState.recording, stopSignals := 0 }).state =
      RecState.inactive ∧
    (timerCallback { state := RecState.recording, stopSignals := 0 }).stopSignals =
      0 + 1 ∧
    controllerStop (timerCallback { state := RecState.recording, stopSignals := 0 }) =
      timerCallback { state := RecState.recording, stopSignals := 0 } :=
  c5_autostop_default_fire_noop 60000
    { state := RecState.recording, stopSignals := 0 } rfl

/-! ## C6: codec selection and reporting -/

/-- C6 counterexample: the claim says the result's `mimeType` always
reports the codec the recorder actually used, never merely the
requested one. But when the recorder reports no mime type
(`recorder.mimeType` empty), the stop listener falls back to the
requested codec: on a platform supporting vp9 where the recorder
reports "", the result carries the requested vp9 string, which is not
what the recorder reported; and the first `recordVideo` variant always
reports the requested codec, never reading `recorder.mimeType`. -/
theorem c6_requested_reported_counterexample :
    pickBestMimeType (fun t => t = "video/webm;codecs=vp9") =
      some "video/webm;codecs=vp9" ∧
    actualMimeType "" (some "video/webm;codecs=vp9") =
      "video/webm;codecs=vp9" ∧
    actualMimeType "" (some "video/webm;codecs=vp9") ≠ "" ∧
    (buildResultV1 [] (fun t => t = "video/webm;codecs=vp9") 0 0).mimeType =
      "video/webm;codecs=vp9" := by
  refine ⟨rfl, rfl, by decide, rfl⟩

/-- C6 amended: `pickBestMimeType` picks the first supported codec of
the ordered preference list (vp9 webm, vp8 webm, plain webm, mp4) and
`none` (platform default) when none is supported; the result's
`mimeType` is the mime type the recorder reports whenever the recorder
reports one, and only falls back to the requested codec (then to
"video/webm") when the recorder reports none. -/
theorem c6_amended_first_supported_reporting (support : String → Bool)
    (recorderMime : String) (chosen : Option String)
    (chunks : List (List Nat)) (a b : Nat) (c : String)
    (hne : recorderMime ≠ "") :
    pickBestMimeType support =
      (if support "video/webm;codecs=vp9" then some "video/webm;codecs=vp9"
       else if support "video/webm;codecs=vp8" then some "video/webm;codecs=vp8"
       else if support "video/webm" then some "video/webm"
       else if support "video/mp4" then some "video/mp4"
       else none) ∧
    (buildResult chunks recorderMime chosen a b).mimeType =
      actualMimeType recorderMime chosen ∧
    actualMimeType recorderMime chosen = recorderMime ∧
    actualMimeType "" (some c) = c ∧
    actualMimeType "" none = "video/webm" := by
  refine ⟨?_, rfl, ?_, rfl, rfl⟩
  · by_cases h9 : support "video/webm;codecs=vp9" <;>
    by_cases h8 : support "video/webm;codecs=vp8" <;>
    by_cases hw : support "video/webm" <;>
    by_cases h4 : support "video/mp4" <;>
    simp [pickBestMimeType, codecCandidates, List.find?, h9, h8, hw, h4]
  · simp [actualMimeType, hne]

/-- C6 amended witness: a platform supporting only plain webm where the
recorder reports the codec it used. -/
theorem c6_amended_witness :
    pickBestMimeType (fun t => t = "video/webm") =
      (if ("video/webm;codecs=vp9" = "video/webm") then some "video/webm;codecs=vp9"
       else if ("video/webm;codecs=vp8" = "video/webm") then some "video/webm;codecs=vp8"
       else if ("video/webm" = "video/webm") then some "video/webm"
       else if ("video/mp4" = "video/webm") then some "video/mp4"
       else none) ∧
    (buildResult [[7]] "video/webm" (some "video/webm") 0 5).mimeType =
      actualMimeType "video/webm" (some "video/webm") ∧
    actualMimeType "video/webm" (some "video/webm") = "video/webm" ∧
    actualMimeType "" (some "video/mp4") = "video/mp4" ∧
    actualMimeType "" none = "video/webm" := by
  have h := c6_amended_first_supported_reporting (fun t => t = "video/webm")
    "video/webm" (some "video/webm") [[7]] 0 5 "video/mp4" (by decide)
  simpa using h

/-! ## C7: store round-trip and counting -/

/-- C7: `saveAttempt` followed by `getAttempt` at the same id returns a
record deep-equal to the one stored (hence the binary payload's bytes
and declared media type, inside `video`, are preserved exactly); and
after saving a list of attempts with pairwise-distinct ids into a fresh
store, `listAttempts` returns exactly as many records. -/
theorem c7_roundtrip_and_count (s : DbState) (a : Attempt)
    (as : List Attempt)
    (hids : as.Pairwise (fun x y => x.id ≠ y.id)) :
    (getAttempt (saveAttempt s a) a.id).1 = some a ∧
    ((listAttempts (as.foldl saveAttempt DbState.init)).1).length =
      as.length := by
  constructor
  · simp [getAttempt, saveAttempt, getDb_records, getRec_putRec_self]
  · have hmap := foldl_saveAttempt_map_id as DbState.init
      (by simp [DbState.init]) hids
    have hlen := congrArg List.length hmap
    simpa [listAttempts, getDb_records, DbState.init] using hlen

/-- C7 witness: save one attempt and read it back; save two attempts
with distinct ids into a fresh store and list both. -/
theorem c7_roundtrip_witness :
    (getAttempt
      (saveAttempt DbState.init
        { id := "a1", testType := TestType.plank, createdAt := "t0"
          verified := false, scoreText := "62s"
          video := some { data := [9, 9], type := "video/webm" }
          mimeType := some "video/webm", durationMs := some 7 }) "a1").1 =
      some
        { id := "a1", testType := TestType.plank, createdAt := "t0"
          verified := false, scoreText := "62s"
          video := some { data := [9, 9], type := "video/webm" }
          mimeType := some "video/webm", durationMs := some 7 } ∧
    ((listAttempts
        ([{ id := "a1", testType := TestType.plank, createdAt := "t0"
            verified := false, scoreText := "62s", video := none
            mimeType := none, durationMs := none },
          { id := "a2", testType := TestType.pushup, createdAt := "t1"
            verified := false, scoreText := "24 reps", video := none
            mimeType := none, durationMs := none }].foldl saveAttempt
          DbState.init)).1).length = 2 :=
  c7_roundtrip_and_count DbState.init
    { id := "a1", testType := TestType.plank, createdAt := "t0"
      verified := false, scoreText := "62s"
      video := some { data := [9, 9], type := "video/webm" }
      mimeType := some "video/webm", durationMs := some 7 }
    [{ id := "a1", testType := TestType.plank, createdAt := "t0"
       verified := false, scoreText := "62s", video := none
       mimeType := none, durationMs := none },
     { id := "a2", testType := TestType.pushup, createdAt := "t1"
       verified := false, scoreText := "24 reps", video := none
       mimeType := none, durationMs := none }]
    (by decide)

/-! ## C8: lazy singleton store handle -/

/-- C8: `getDb` is lazy (the fresh module state holds no connection and
has opened nothing) and idempotent: the first call opens the database
and provisions the "attempts" store, and every later call returns the
cached handle and state unchanged — after any number of calls only one
connection was ever opened. -/
theorem c8_getDb_lazy_singleton (s : DbState) :
    DbState.init.dbInstance = none ∧
    DbState.init.opens = 0 ∧
    ((getDb DbState.init).2).provisioned = true ∧
    ((getDb DbState.init).2).opens = 1 ∧
    getDb ((getDb s).2) = ((getDb s).1, (getDb s).2) ∧
    ((getDb ((getDb DbState.init).2)).2).opens = 1 := by
  refine ⟨rfl, rfl, rfl, rfl, ?_, rfl⟩
  cases h : s.dbInstance <;> simp [getDb, h]

/-! ## C9: blob content type equals result mimeType -/

/-- C9: in every result either `recordVideo` variant produces, the
declared content type of the blob equals the result's `mimeType`
field — both are built from the same selected media type. -/
theorem c9_blob_type_eq_mimeType (chunks : List (List Nat))
    (recorderMime : String) (chosen : Option String) (a b : Nat)
    (isTypeSupported : String → Bool) :
    (buildResult chunks recorderMime chosen a b).blob.type =
      (buildResult chunks recorderMime chosen a b).mimeType ∧
    (buildResultV1 chunks isTypeSupported a b).blob.type =
      (buildResultV1 chunks isTypeSupported a b).mimeType :=
  ⟨rfl, rfl⟩

/-! ## C10: zero-size chunks are dropped; empty capture completes -/

/-- C10: the `dataavailable` handler drops zero-size chunks, so the
final blob is the concatenation of exactly the non-empty chunks in
emission order; and a capture whose chunks were all empty still builds
a Completed result whose payload has byte length 0. -/
theorem c10_drop_empty_chunks (emitted : List (List Nat))
    (recorderMime : String) (chosen : Option String) (a b : Nat) :
    accumChunks emitted = emitted.filter (fun d => decide (0 < d.length)) ∧
    (buildResult (accumChunks emitted) recorderMime chosen a b).blob.data =
      (emitted.filter (fun d => decide (0 < d.length))).flatten ∧
    ((∀ d ∈ emitted, d = []) →
      (buildResult (accumChunks emitted) recorderMime chosen a b).blob.data.length
        = 0) := by
  refine ⟨accumChunks_eq_filter emitted, ?_, ?_⟩
  · rw [accumChunks_eq_filter]
    rfl
  · intro hall
    have hfilter : emitted.filter (fun d => decide (0 < d.length)) = [] := by
      rw [List.filter_eq_nil_iff]
      intro d hd
      simp [hall d hd]
    rw [accumChunks_eq_filter]
    simp [buildResult, hfilter]

/-- C10 witness: a stream that emitted one non-empty chunk between two
empty ones, and a stream that emitted only empty chunks. -/
theorem c10_drop_empty_chunks_witness :
    accumChunks [[], [4, 5], []] =
      [[], [4, 5], []].filter (fun d => decide (0 < d.length)) ∧
    (buildResult (accumChunks [[], []]) "video/webm" none 0 3).blob.data.length
      = 0 := by
  constructor
  · exact (c10_drop_empty_chunks [[], [4, 5], []] "video/webm" none 0 3).1
  · exact (c10_drop_empty_chunks [[], []] "video/webm" none 0 3).2.2
      (by intro d hd; simpa using hd)

end Win
